import Mathlib

/-!
Shallow embedding of the UVG-Agent RAG glue layer (`app/agent.py`,
`app/nuclia.py`, `app/main.py`) and proofs about its source-extraction,
context-building, response-normalisation and HTTP error-handling logic.

Modelling conventions:
* JSON numbers (relevance scores) are modelled as `ℚ`; Python `round(x, 3)`
  (half-to-even on binary floats) is abstracted as rounding to the nearest
  multiple of 1/1000 — no claim below depends on tie behaviour.
* Python dict/string truthiness is made explicit: an `Option` field whose
  `none` covers "key absent / null / empty (falsy) value", or a `String`
  field whose `""` covers "absent / null / empty".
* Network and SDK calls are modelled by an explicit `Env` of pure oracles;
  `none` (resp. `.error`) models the call raising an exception.  The
  per-request `resources_cache` memo of `extract_sources_info` is semantically
  transparent over such pure oracles and is therefore not materialised.
* Python `str.strip` / `str.lower` / substring `in` are modelled character-wise
  (`pyStrip`, `pyLower`, `pyIn`); Python additionally strips some exotic
  Unicode whitespace, which nothing here exercises.
-/

namespace UVGAgent

/-- Whitespace test backing the model of Python `str.strip`. -/
def isSpace (c : Char) : Bool := c = ' ' || c = '\t' || c = '\n' || c = '\r'

/-- Model of Python `str.strip()`. -/
def pyStrip (s : String) : String :=
  String.mk (((s.toList.dropWhile isSpace).reverse.dropWhile isSpace).reverse)

/-- Model of Python `str.lower()`. -/
def pyLower (s : String) : String := String.mk (s.toList.map Char.toLower)

/-- Helper for substring containment on character lists. -/
def listHasInfix (pat : List Char) : List Char → Bool
  | [] => pat.isEmpty
  | c :: rest => List.isPrefixOf pat (c :: rest) || listHasInfix pat rest

/-- Model of Python substring containment `pat in s`. -/
def pyIn (pat s : String) : Bool := listHasInfix pat.toList s.toList

/-- Model of Python character slicing `s[:n]`. -/
def pyTake (s : String) (n : Nat) : String := String.mk (s.toList.take n)

/-- Model of Python `round(q, 3)` (ties abstracted, see header). -/
def round3 (q : ℚ) : ℚ := (round (q * 1000) : ℤ) / 1000

/-- Association-list model of a JSON object used as a string-keyed map;
`dictGet` is Python `d.get(k, default)`. -/
def dictGet {α : Type} (d : List (String × α)) (k : String) (default : α) : α :=
  ((d.find? (fun p => p.1 == k)).map (fun p => p.2)).getD default

/-- Paragraph-hit position object (`hit["position"]`). -/
structure Position where
  page_number : Option Int := none
deriving DecidableEq

/-- One paragraph hit of the search payload.  `text := none` covers an
absent or null `"text"` key (the code applies `or ""`). -/
structure Hit where
  score : Option ℚ := none
  text : Option String := none
  rid : String := ""
  field : String := ""
  position : Option Position := none
deriving DecidableEq

/-- The `origin` sub-object of a resource; `none` at the use site covers a
missing or non-dict origin (the code guards with `isinstance(origin, dict)`). -/
structure Origin where
  url : String := ""
  path : String := ""
deriving DecidableEq

/-- The `metadata` sub-object of a resource (same conventions as `Origin`). -/
structure RMetadata where
  uri : String := ""
  url : String := ""
deriving DecidableEq

/-- Per-resource info embedded in the search payload's `resources` map. -/
structure ResourceInfo where
  title : Option String := none
  icon : Option String := none
  origin : Option Origin := none
  metadata : Option RMetadata := none
deriving DecidableEq

/-- The `value.file` object of a file field of a full resource. -/
structure FileData where
  content_type : String := ""
  size : Int := 0
  filename : Option String := none
deriving DecidableEq

/-- The `value` object of a file field. -/
structure FileValue where
  file : FileData := {}
deriving DecidableEq

/-- One entry of `resource_details["data"]["files"]`. -/
structure FileField where
  value : FileValue := {}
deriving DecidableEq

/-- The `data` object of a full resource fetched via the SDK. -/
structure ResourceData where
  files : List (String × FileField) := []
deriving DecidableEq

/-- A full resource as returned by `get_nuclia_resource`. -/
structure ResourceDetails where
  data : ResourceData := {}
deriving DecidableEq

/-- The searchable part of a payload: a `resources` map and the list
`paragraphs.results` (`[]` covers an absent/null `paragraphs` object). -/
structure RetrievalResults where
  resources : List (String × ResourceInfo) := []
  paragraphs : List Hit := []
deriving DecidableEq

/-- The `retrieval` sub-object of a raw ASK response; `results := none`
covers an absent/null/empty (falsy) `results` dict. -/
structure Retrieval where
  results : Option RetrievalResults := none
deriving DecidableEq

/-- The `raw_response` sub-object; each `none` covers an absent, null,
non-dict or falsy value, matching the truthiness tests of the code. -/
structure RawResponse where
  retrieval_results : Option RetrievalResults := none
  retrieval : Option Retrieval := none
deriving DecidableEq

/-- A search payload handed to `extract_sources_info` / `build_context`:
its own top-level `resources`/`paragraphs` view plus an optional
`raw_response` (`none` = absent/null/empty, i.e. falsy). -/
structure SearchPayload where
  raw_response : Option RawResponse := none
  top : RetrievalResults := {}
deriving DecidableEq

/-- Process configuration (`app/config.py` values consumed here). -/
structure Config where
  NUCLIA_API_BASE : String
  KB : String

/-- Pure oracles standing for the external Nuclia SDK / HTTP calls made
during source extraction; `none` models the call raising. -/
structure Env where
  sdkResource : String → Option ResourceDetails
  httpResource : String → Option ResourceDetails
  sdkTemporalUrl : String → String → Nat → Option String

/-- Model of `get_nuclia_resource` (nuclia.py): try the SDK, fall back to a
direct HTTP fetch; `none` means both raised, so the exception propagates. -/
def get_nuclia_resource (env : Env) (resource_id : String) : Option ResourceDetails :=
  match env.sdkResource resource_id with
  | some d => some d
  | none => env.httpResource resource_id

/-- Model of `get_temporal_download_url` (nuclia.py): try the SDK; on failure
return the standard authenticated download URL — the caller never sees an
exception from this function. -/
def get_temporal_download_url (cfg : Config) (env : Env)
    (resource_id : String) (file_id : String) (ttl : Nat) : String :=
  match env.sdkTemporalUrl resource_id file_id ttl with
  | some u => u
  | none =>
      cfg.NUCLIA_API_BASE ++ "/kb/" ++ cfg.KB ++ "/resource/" ++ resource_id ++
        "/file/" ++ file_id ++ "/download"

/-- Metadata-annotated block of `build_context` (nuclia.py lines 245–271),
for a hit that survived both filters with trimmed text `text`. -/
def contextMetaBlock (resources : List (String × ResourceInfo))
    (hit : Hit) (text : String) : String :=
  let resource_id := hit.rid
  let field := hit.field
  let resource_info := dictGet resources resource_id {}
  let title := resource_info.title.getD ""
  let page_num := (hit.position.getD {}).page_number
  let metadata_parts : List String :=
    (if title ≠ "" then ["📄 " ++ title]
     else if field ≠ "" then ["Fuente: " ++ field] else []) ++
    (match page_num with
     | some p => if p ≠ 0 then ["(página " ++ toString p ++ ")"] else []
     | none => [])
  if metadata_parts ≠ [] then
    "[" ++ String.intercalate " " metadata_parts ++ "]\n" ++ text
  else
    text

/-- One block of `build_context` (nuclia.py, loop body): `none` when the hit
is dropped by the score filter (missing score defaults to 1.0) or by the
empty-trimmed-text filter. -/
def contextBlock? (resources : List (String × ResourceInfo))
    (include_metadata : Bool) (score_threshold : ℚ) (hit : Hit) : Option String :=
  if hit.score.getD 1 < score_threshold then none
  else if pyStrip (hit.text.getD "") = "" then none
  else if include_metadata then
    some (contextMetaBlock resources hit (pyStrip (hit.text.getD "")))
  else some (pyStrip (hit.text.getD ""))

/-- The ordered block list assembled by `build_context` before joining. -/
def contextBlocks (search_json : SearchPayload) (max_chunks : Nat)
    (include_metadata : Bool) (score_threshold : ℚ) : List String :=
  (search_json.top.paragraphs.take max_chunks).filterMap
    (contextBlock? search_json.top.resources include_metadata score_threshold)

/-- Model of `build_context` (nuclia.py): filtered blocks joined with the
visible separator. -/
def build_context (search_json : SearchPayload) (max_chunks : Nat)
    (include_metadata : Bool) (score_threshold : ℚ) : String :=
  String.intercalate "\n\n---\n\n"
    (contextBlocks search_json max_chunks include_metadata score_threshold)

/-- The file-download descriptor attached to a downloadable SourceEntry
(agent.py, `file_download_info`). -/
structure FileDownloadInfo where
  download_url : String
  content_type : String
  size : Int
  filename : String
  file_id : String
  is_pdf : Bool
  is_excel : Bool
  ttl : Nat
deriving DecidableEq

/-- A normalized, UI-facing citation record built by `extract_sources_info`.
`file := none` models the `"file"` key being absent from the dict. -/
structure SourceEntry where
  id : Nat
  title : String
  text : String
  score : Option ℚ
  page : Option Int
  field : String
  resource_id : String
  url : String
  url_type : String
  resource_type : String
  has_url : Bool
  file : Option FileDownloadInfo
  is_downloadable : Bool
deriving DecidableEq

/-- Shape probing of `extract_sources_info` (agent.py lines 84–99): format 1
is `raw_response.retrieval_results`, format 2 is `raw_response.retrieval.results`,
format 3 (fallback, when the previous ones are falsy) is the payload itself. -/
def pickRetrievalResults (search_json : SearchPayload) : RetrievalResults :=
  match search_json.raw_response with
  | none => search_json.top
  | some rr =>
    match rr.retrieval_results with
    | some r => r
    | none =>
      match rr.retrieval.bind Retrieval.results with
      | some r => r
      | none => search_json.top

/-- Icon-based file classification (agent.py line 133). -/
def isFileIcon (icon : String) : Bool :=
  icon ≠ "" && pyIn "application/" icon && icon ≠ "application/stf-link"

/-- Icon-based link classification (agent.py line 134). -/
def isLinkIcon (icon : String) : Bool := icon == "application/stf-link"

/-- Source-dict construction of the `extract_sources_info` loop body
(agent.py lines 120–243), for a hit that survived both filters.  The `try`
block around the file lookup is modelled by the `Option` result of
`get_nuclia_resource`: `none` (an exception) leaves the entry without
download info, exactly like the `except: pass`. -/
def buildSourceEntry (cfg : Config) (env : Env)
    (resources : List (String × ResourceInfo))
    (idx : Nat) (hit : Hit) : SourceEntry :=
  let score := hit.score.getD 0
  let text := pyStrip (hit.text.getD "")
  let resource_id := hit.rid
  let field := hit.field
  let resource_info := dictGet resources resource_id {}
  let title := resource_info.title.getD "Documento sin título"
  let icon := resource_info.icon.getD ""
  let is_file := isFileIcon icon
  let is_link := isLinkIcon icon
  let urlFdi : String × Option FileDownloadInfo :=
    if is_file && resource_id ≠ "" then
      match get_nuclia_resource env resource_id with
      | none => ("", none)
      | some resource_details =>
        match resource_details.data.files.find?
            (fun p => p.2.value.file.content_type ≠ "") with
        | none => ("", none)
        | some (file_id, file_info) =>
          let file_data := file_info.value.file
          let content_type := file_data.content_type
          let temporal_url := get_temporal_download_url cfg env resource_id file_id 3600
          let fdi : FileDownloadInfo :=
            { download_url := temporal_url
              content_type := content_type
              size := file_data.size
              filename := file_data.filename.getD title
              file_id := file_id
              is_pdf := pyIn "pdf" (pyLower content_type)
              is_excel := pyIn "sheet" (pyLower content_type) ||
                          pyIn "excel" (pyLower content_type)
              ttl := 3600 }
          (temporal_url, some fdi)
    else if is_link then
      let url1 :=
        match resource_info.origin with
        | some o => if o.url ≠ "" then o.url else o.path
        | none => ""
      let url2 :=
        if url1 = "" then
          match resource_info.metadata with
          | some m => if m.uri ≠ "" then m.uri else m.url
          | none => ""
        else url1
      (url2, none)
    else ("", none)
  let file_download_info := urlFdi.2
  let url :=
    if urlFdi.1 = "" && resource_id ≠ "" then
      cfg.NUCLIA_API_BASE ++ "/kb/" ++ cfg.KB ++ "/resource/" ++ resource_id
    else urlFdi.1
  let page_num := (hit.position.getD {}).page_number
  let url_type :=
    if url ≠ "" then
      if pyIn "http://" url || pyIn "https://" url then
        if pyIn "nuclia" url || pyIn "rag.progress.cloud" url then "nuclia"
        else "external"
      else "resource"
    else "none"
  let resource_type := if icon ≠ "" then icon else "unknown"
  { id := idx + 1
    title := title
    text := text
    score := if score ≠ 0 then some (round3 score) else none
    page := page_num
    field := field
    resource_id := resource_id
    url := url
    url_type := url_type
    resource_type := resource_type
    has_url := url ≠ ""
    file := file_download_info
    is_downloadable := file_download_info.isSome }

/-- Loop body of `extract_sources_info` for one enumerated hit (agent.py
lines 111–243): `none` when the hit is dropped (score below threshold —
missing score defaults to 0.0 — or empty trimmed text); otherwise the
constructed source dict. -/
def extractEntry? (cfg : Config) (env : Env)
    (resources : List (String × ResourceInfo)) (score_threshold : ℚ)
    (idx : Nat) (hit : Hit) : Option SourceEntry :=
  if hit.score.getD 0 < score_threshold then none
  else if pyStrip (hit.text.getD "") = "" then none
  else some (buildSourceEntry cfg env resources idx hit)

/-- The enumerated for-loop of `extract_sources_info` (agent.py line 111):
`idx` advances for every hit of the window, kept or skipped. -/
def sourcesLoop (cfg : Config) (env : Env)
    (resources : List (String × ResourceInfo)) (score_threshold : ℚ) :
    Nat → List Hit → List SourceEntry
  | _, [] => []
  | idx, hit :: rest =>
    match extractEntry? cfg env resources score_threshold idx hit with
    | some e => e :: sourcesLoop cfg env resources score_threshold (idx + 1) rest
    | none => sourcesLoop cfg env resources score_threshold (idx + 1) rest

/-- Model of `extract_sources_info` (agent.py): probe the payload shape,
then walk the first `max_chunks` paragraph hits building source entries. -/
def extract_sources_info (cfg : Config) (env : Env) (search_json : SearchPayload)
    (max_chunks : Nat) (score_threshold : ℚ) : List SourceEntry :=
  let retrieval_results := pickRetrievalResults search_json
  let resources := retrieval_results.resources
  let para := retrieval_results.paragraphs
  sourcesLoop cfg env resources score_threshold 0 (para.take max_chunks)

/-- One retrieval result of a raw Nuclia ASK response (`retrieval.results[i]`).
All fields optional: `item.get` without defaults may yield null. -/
structure RItem where
  text : Option String := none
  score : Option ℚ := none
  rid : Option String := none
  field : Option String := none
  title : Option String := none
deriving DecidableEq

/-- One normalized source of `parse_nuclia_ask_response`. -/
structure AskSource where
  id : Nat
  text : String
  score : Option ℚ
  resource_id : Option String
  field : Option String
  title : String
deriving DecidableEq

/-- The `retrieval` object of a raw ASK response as read by the normalizer:
`results := none` models the `"results"` key being absent. -/
structure Retrieval2 where
  results : Option (List RItem) := none

/-- Raw synchronous Nuclia ASK response, generic over the passthrough
payload types of `metadata` / `citations` / `relations`; each `Option`
models key presence (`"answer" in response`, etc.). -/
structure NucliaAskResponse (μ χ ρ : Type) where
  answer : Option String := none
  retrieval : Option Retrieval2 := none
  metadata : Option μ := none
  citations : Option χ := none
  relations : Option ρ := none

/-- Result envelope of `parse_nuclia_ask_response`; `none` in the
passthrough fields models the defaults (`{}` / `[]`) being kept. -/
structure ParsedAskResult (μ χ ρ : Type) where
  answer : String
  sources : List AskSource
  metadata : Option μ
  citations : Option χ
  relations : Option ρ

/-- Enumerated loop of the normalizer over `retrieval["results"]`. -/
def askSourcesLoop : Nat → List RItem → List AskSource
  | _, [] => []
  | idx, item :: rest =>
    { id := idx + 1
      text := item.text.getD ""
      score := item.score
      resource_id := item.rid
      field := item.field
      title := item.title.getD "Documento sin título" } :: askSourcesLoop (idx + 1) rest

/-- Model of `parse_nuclia_ask_response` (nuclia.py). -/
def parse_nuclia_ask_response {μ χ ρ : Type}
    (response : NucliaAskResponse μ χ ρ) : ParsedAskResult μ χ ρ :=
  let answer := response.answer.getD ""
  let sources :=
    match response.retrieval with
    | some retrieval =>
      match retrieval.results with
      | some results => askSourcesLoop 0 results
      | none => []
    | none => []
  { answer := answer
    sources := sources
    metadata := response.metadata
    citations := response.citations
    relations := response.relations }

/-- A `requests.HTTPError`: `response = none` models `e.response is None`;
otherwise the pair is `(status_code, text)`.  `msg` is `str(e)`. -/
structure RequestsHTTPError where
  response : Option (Nat × String)
  msg : String
deriving DecidableEq

/-- An exception escaping a route body: an upstream `requests.HTTPError`
or any other exception (carrying `str(e)`). -/
inductive PyError
  | http (e : RequestsHTTPError)
  | other (msg : String)
deriving DecidableEq

/-- A FastAPI `HTTPException` as raised by the routes. -/
structure FastHTTPException where
  status_code : Nat
  detail : String
deriving DecidableEq

/-- Error handling of the `/ask` route (main.py lines 48–53), applied to the
outcome of its (single, unretried) body: an upstream `HTTPError` becomes a
fixed-status-502 exception embedding the upstream status and the body
truncated to 600 characters; any other exception becomes a 502. -/
def ask_route (α : Type) (outcome : Except PyError α) : Except FastHTTPException α :=
  match outcome with
  | .ok v => .ok v
  | .error (.http e) =>
    let status := match e.response with | some r => r.1 | none => 502
    let detail := match e.response with | some r => pyTake r.2 600 | none => e.msg
    .error { status_code := 502
             detail := "Error consultando Nuclia (" ++ toString status ++ "): " ++ detail }
  | .error (.other m) =>
    .error { status_code := 502, detail := "Error llamando a Claude: " ++ m }

/-- Error handling of the `/nuclia-ask` route (main.py lines 111–119): an
upstream `HTTPError` becomes an exception with the upstream status code and
the body truncated to 600 characters; any other exception becomes a 500. -/
def nuclia_ask_route (α : Type) (outcome : Except PyError α) : Except FastHTTPException α :=
  match outcome with
  | .ok v => .ok v
  | .error (.http e) =>
    let status := match e.response with | some r => r.1 | none => 502
    let detail := match e.response with | some r => pyTake r.2 600 | none => e.msg
    .error { status_code := status
             detail := "Error en endpoint /ask de Nuclia (" ++ toString status ++ "): " ++ detail }
  | .error (.other m) =>
    .error { status_code := 500, detail := "Error procesando solicitud: " ++ m }

/-- Oracle for the SDK file download used by the proxy: `.error msg` models
the SDK raising with message `msg`; bytes are abstracted as `List Nat`. -/
structure DownloadEnv where
  sdkDownload : String → String → Except String (List Nat)

/-- Result dict of `download_resource_file` (nuclia.py). -/
structure DownloadedFile where
  content : List Nat
  content_type : String
  size : Nat
deriving DecidableEq

/-- Model of `download_resource_file` (nuclia.py): download via the SDK and
return the bytes with a hardcoded `application/octet-stream` content type
(the SDK exposes no headers); an SDK failure re-raises. -/
def download_resource_file (env : DownloadEnv) (resource_id : String)
    (file_id : String) : Except String DownloadedFile :=
  match env.sdkDownload resource_id file_id with
  | .ok content =>
    .ok { content := content
          content_type := "application/octet-stream"
          size := content.length }
  | .error e => .error e

/-- The `iter_bytes` chunking of the download route: successive slices of
8192 bytes. -/
def iterBytes (content : List Nat) : List (List Nat) :=
  if h : content = [] then []
  else content.take 8192 :: iterBytes (content.drop 8192)
termination_by content.length
decreasing_by
  simp only [List.length_drop]
  have hpos : 0 < content.length := List.length_pos.mpr h
  omega

/-- A streaming response as assembled by the download route. -/
structure StreamingResp where
  chunks : List (List Nat)
  media_type : String
  headers : List (String × String)
deriving DecidableEq

/-- Model of the `/download/{resource_id}/{file_id}` route (main.py): fetch
the file server-side and re-stream it; any failure becomes a generic 500. -/
def download_file (env : DownloadEnv) (resource_id : String) (file_id : String) :
    Except FastHTTPException StreamingResp :=
  match download_resource_file env resource_id file_id with
  | .ok file_data =>
    let content := file_data.content
    let content_type := file_data.content_type
    let content_disposition :=
      "attachment; filename=\"" ++ resource_id ++ "_" ++ file_id ++ ".pdf\""
    .ok { chunks := iterBytes content
          media_type := content_type
          headers :=
            [("Content-Disposition", content_disposition),
             ("Content-Length", toString content.length),
             ("Cache-Control", "private, max-age=3600")] }
  | .error e =>
    .error { status_code := 500, detail := "Error descargando archivo: " ++ e }

/-! Concrete fixtures used by witnesses and counterexamples. -/

/-- Sample process configuration. -/
def cfg0 : Config := ⟨"https://rag.progress.cloud/api/v1", "kb1"⟩

/-- Environment in which every external lookup raises. -/
def envNone : Env := ⟨fun _ => none, fun _ => none, fun _ _ _ => none⟩

/-- A fetched resource carrying one PDF file field. -/
def detPdf : ResourceDetails := ⟨⟨[("f1", ⟨⟨⟨"application/pdf", 1234, some "doc.pdf"⟩⟩⟩)]⟩⟩

/-- Environment where the resource lookup and URL issuance both succeed. -/
def envPdf : Env :=
  ⟨fun _ => some detPdf, fun _ => none, fun _ _ _ => some "https://nuclia.example/tmp"⟩

/-- Environment where the resource lookup succeeds but the SDK URL-issuance
call raises. -/
def envPdfNoUrl : Env := ⟨fun _ => some detPdf, fun _ => none, fun _ _ _ => none⟩

/-- A paragraph hit pointing at the PDF resource `r1` (no score field). -/
def hitFile : Hit := { text := some "hola", rid := "r1", field := "f" }

/-- Search-payload metadata of resource `r1`: a PDF icon. -/
def resInfoPdf : ResourceInfo := { title := some "T", icon := some "application/pdf" }

/-- A payload with a single file hit. -/
def payloadFile : SearchPayload :=
  { top := { resources := [("r1", resInfoPdf)], paragraphs := [hitFile] } }

/-- A hit with no score field at all. -/
def hitNS : Hit := { text := some "hola" }

/-- A payload whose only hit lacks a score field. -/
def pNS : SearchPayload := { top := { paragraphs := [hitNS] } }

/-- Top-level hit of the two-shape payload. -/
def hitA : Hit := { text := some "A" }

/-- Nested hit of the two-shape payload. -/
def hitB : Hit := { text := some "B" }

/-- A payload carrying both top-level paragraphs and
`raw_response.retrieval_results`. -/
def pC4 : SearchPayload :=
  { raw_response := some { retrieval_results := some { paragraphs := [hitB] } }
    top := { paragraphs := [hitA] } }

/-- A hit whose text trims to empty (filtered out). -/
def hitEmpty : Hit := { text := some "   " }

/-- A surviving hit following a filtered one. -/
def hitX : Hit := { text := some "x" }

/-- A payload whose first hit is filtered and second survives. -/
def pC5 : SearchPayload := { top := { paragraphs := [hitEmpty, hitX] } }

/-- A hit pointing at a resource with a non-application MIME icon. -/
def hitPng : Hit := { text := some "img", rid := "r2" }

/-- A payload whose only resource has icon `image/png`. -/
def pC6 : SearchPayload :=
  { top := { resources := [("r2", { title := some "Img", icon := some "image/png" })]
             paragraphs := [hitPng] } }

/-- A download environment returning three bytes. -/
def dlEnv0 : DownloadEnv := ⟨fun _ _ => .ok [1, 2, 3]⟩

/-- A hit with an explicit score field. -/
def hitSc : Hit := { score := some 1, text := some "x" }

/-- A hit pointing at a link resource. -/
def hitLink : Hit := { text := some "l", rid := "r3" }

/-- A resources map classifying `r3` as a link with an origin URL. -/
def resLink : List (String × ResourceInfo) :=
  [("r3", { title := some "L", icon := some "application/stf-link",
            origin := some ⟨"http://x", ""⟩ })]

/-- A single retrieval result of a raw ASK response. -/
def itemC9 : RItem := { text := some "t", rid := some "R" }

/-- A raw ASK response carrying one retrieval result. -/
def respC9 : NucliaAskResponse Unit Unit Unit := { retrieval := some ⟨some [itemC9]⟩ }

/-- The streaming response served for `dlEnv0`'s three bytes. -/
def resp0 : StreamingResp :=
  { chunks := iterBytes [1, 2, 3]
    media_type := "application/octet-stream"
    headers :=
      [("Content-Disposition", "attachment; filename=\"r1_f1.pdf\""),
       ("Content-Length", "3"),
       ("Cache-Control", "private, max-age=3600")] }

/-! Helper lemmas shared by the claim theorems. -/

/-- The file descriptor attached by `buildSourceEntry`, when present, has
its `is_pdf` flag computed from its own content type and a 3600s ttl. -/
theorem buildSourceEntry_file {cfg : Config} {env : Env}
    {resources : List (String × ResourceInfo)} {idx : Nat} {hit : Hit}
    {d : FileDownloadInfo}
    (hd : (buildSourceEntry cfg env resources idx hit).file = some d) :
    d.is_pdf = pyIn "pdf" (pyLower d.content_type) ∧ d.ttl = 3600 := by
  unfold buildSourceEntry at hd
  dsimp only at hd
  split at hd
  · split at hd
    · exact Option.noConfusion hd
    · split at hd
      · exact Option.noConfusion hd
      · injection hd with hd'
        subst hd'
        exact ⟨rfl, rfl⟩
  · split at hd
    · exact Option.noConfusion hd
    · exact Option.noConfusion hd

/-- Every constructed source entry has id = window position + 1, has the
downloadability flag equal to the presence of the file descriptor, and its
descriptor's `is_pdf`/`ttl` fields as built. -/
theorem extractEntry?_spec {cfg : Config} {env : Env}
    {resources : List (String × ResourceInfo)} {thr : ℚ} {idx : Nat} {hit : Hit}
    {e : SourceEntry} (h : extractEntry? cfg env resources thr idx hit = some e) :
    e.id = idx + 1 ∧ e.is_downloadable = e.file.isSome ∧
      (∀ d, e.file = some d →
        d.is_pdf = pyIn "pdf" (pyLower d.content_type) ∧ d.ttl = 3600) := by
  unfold extractEntry? at h
  split at h
  · exact Option.noConfusion h
  · split at h
    · exact Option.noConfusion h
    · injection h with h'
      subst h'
      exact ⟨rfl, rfl, fun d hd => buildSourceEntry_file hd⟩

/-- Survival condition of the source-extraction loop body. -/
theorem extractEntry?_isSome {cfg : Config} {env : Env}
    {resources : List (String × ResourceInfo)} {thr : ℚ} {idx : Nat} {hit : Hit} :
    (extractEntry? cfg env resources thr idx hit).isSome ↔
      ¬(hit.score.getD 0 < thr) ∧ pyStrip (hit.text.getD "") ≠ "" := by
  unfold extractEntry?
  split
  · simp [*]
  · split
    · simp [*]
    · simp [*]

/-- Survival condition of the context-builder loop body. -/
theorem contextBlock?_isSome {resources : List (String × ResourceInfo)}
    {im : Bool} {thr : ℚ} {hit : Hit} :
    (contextBlock? resources im thr hit).isSome ↔
      ¬(hit.score.getD 1 < thr) ∧ pyStrip (hit.text.getD "") ≠ "" := by
  unfold contextBlock?
  split
  · simp [*]
  · split
    · simp [*]
    · split <;> simp [*]

/-- Every output of the extraction loop arises from some hit of the walked
window, at its window index. -/
theorem sourcesLoop_mem {cfg : Config} {env : Env}
    {resources : List (String × ResourceInfo)} {thr : ℚ} {e : SourceEntry} :
    ∀ (l : List Hit) (s : Nat), e ∈ sourcesLoop cfg env resources thr s l →
      ∃ i hit, l.get? i = some hit ∧
        extractEntry? cfg env resources thr (s + i) hit = some e := by
  intro l
  induction l with
  | nil => intro s h; simp [sourcesLoop] at h
  | cons x rest ih =>
    intro s h
    unfold sourcesLoop at h
    rcases hf : extractEntry? cfg env resources thr s x with _ | e'
    · rw [hf] at h
      obtain ⟨i, hit, h1, h2⟩ := ih (s + 1) h
      exact ⟨i + 1, hit, by simpa using h1,
        by simpa [Nat.add_assoc, Nat.add_comm 1 i] using h2⟩
    · rw [hf] at h
      rcases List.mem_cons.mp h with h | h
      · exact ⟨0, x, rfl, by simpa [h] using hf⟩
      · obtain ⟨i, hit, h1, h2⟩ := ih (s + 1) h
        exact ⟨i + 1, hit, by simpa using h1,
          by simpa [Nat.add_assoc, Nat.add_comm 1 i] using h2⟩

/-- The extraction loop emits at most one entry per walked hit. -/
theorem sourcesLoop_length {cfg : Config} {env : Env}
    {resources : List (String × ResourceInfo)} {thr : ℚ} :
    ∀ (l : List Hit) (s : Nat),
      (sourcesLoop cfg env resources thr s l).length ≤ l.length := by
  intro l
  induction l with
  | nil => intro s; simp [sourcesLoop]
  | cons x rest ih =>
    intro s
    unfold sourcesLoop
    rcases hf : extractEntry? cfg env resources thr s x with _ | e'
    · exact Nat.le_succ_of_le (ih (s + 1))
    · simpa using ih (s + 1)

/-- Every entry emitted from start index `s` has id at least `s + 1`. -/
theorem sourcesLoop_id_lb {cfg : Config} {env : Env}
    {resources : List (String × ResourceInfo)} {thr : ℚ} {e : SourceEntry} :
    ∀ (l : List Hit) (s : Nat), e ∈ sourcesLoop cfg env resources thr s l →
      s + 1 ≤ e.id := by
  intro l s h
  obtain ⟨i, hit, _, h2⟩ := sourcesLoop_mem l s h
  have := (extractEntry?_spec h2).1
  omega

/-- Ids are strictly increasing along the extraction loop's output. -/
theorem sourcesLoop_chain {cfg : Config} {env : Env}
    {resources : List (String × ResourceInfo)} {thr : ℚ} :
    ∀ (l : List Hit) (s : Nat),
      List.Chain' (fun a b => a.id < b.id) (sourcesLoop cfg env resources thr s l) := by
  intro l
  induction l with
  | nil => intro s; simp [sourcesLoop]
  | cons x rest ih =>
    intro s
    unfold sourcesLoop
    rcases hf : extractEntry? cfg env resources thr s x with _ | e'
    · exact ih (s + 1)
    · refine List.chain'_cons'.mpr ⟨?_, ih (s + 1)⟩
      intro y hy
      have hmem : y ∈ sourcesLoop cfg env resources thr (s + 1) rest :=
        List.mem_of_mem_head? hy
      have h1 := sourcesLoop_id_lb rest (s + 1) hmem
      have h2 := (extractEntry?_spec hf).1
      omega

/-- Restricting a list to the survivors of `f` does not change `filterMap f`. -/
theorem filterMap_filter_isSome {α β : Type} (f : α → Option β) (l : List α) :
    (l.filter (fun a => (f a).isSome)).filterMap f = l.filterMap f := by
  induction l with
  | nil => rfl
  | cons x rest ih =>
    rcases hf : f x with _ | b <;>
      simp [List.filter_cons, List.filterMap_cons, hf, ih]

/-- Length and contents of the alternate-ask normalizer loop. -/
theorem askSourcesLoop_get? :
    ∀ (l : List RItem) (s i : Nat),
      (askSourcesLoop s l).get? i =
        (l.get? i).map (fun item =>
          { id := s + i + 1
            text := item.text.getD ""
            score := item.score
            resource_id := item.rid
            field := item.field
            title := item.title.getD "Documento sin título" }) := by
  intro l
  induction l with
  | nil => intro s i; simp [askSourcesLoop]
  | cons x rest ih =>
    intro s i
    cases i with
    | zero => simp [askSourcesLoop]
    | succ j =>
      unfold askSourcesLoop
      simp only [List.get?_cons_succ]
      rw [ih (s + 1) j]
      have : s + 1 + j = s + (j + 1) := by omega
      rw [this]

/-- The normalizer loop preserves length. -/
theorem askSourcesLoop_length :
    ∀ (l : List RItem) (s : Nat), (askSourcesLoop s l).length = l.length := by
  intro l
  induction l with
  | nil => intro s; rfl
  | cons x rest ih => intro s; simp [askSourcesLoop, ih (s + 1)]

/-- A kept entry is exactly the record built by `buildSourceEntry`. -/
theorem extractEntry?_eq_build {cfg : Config} {env : Env}
    {resources : List (String × ResourceInfo)} {thr : ℚ} {idx : Nat} {hit : Hit}
    {e : SourceEntry} (h : extractEntry? cfg env resources thr idx hit = some e) :
    e = buildSourceEntry cfg env resources idx hit := by
  unfold extractEntry? at h
  split at h
  · exact Option.noConfusion h
  · split at h
    · exact Option.noConfusion h
    · injection h with h'
      exact h'.symm

/-- When both the SDK and the HTTP fallback of the resource lookup raise,
the built entry carries no file descriptor. -/
theorem buildSourceEntry_lookupFail (cfg : Config)
    (u : String → String → Nat → Option String)
    (resources : List (String × ResourceInfo)) (idx : Nat) (hit : Hit) :
    (buildSourceEntry cfg ⟨fun _ => none, fun _ => none, u⟩ resources idx hit).file
      = none := by
  unfold buildSourceEntry get_nuclia_resource
  dsimp only
  split
  · rfl
  · split
    · rfl
    · rfl

/-- When the SDK URL issuance raises, an attached descriptor carries the
standard fallback download URL. -/
theorem buildSourceEntry_urlFail (cfg : Config)
    (r h : String → Option ResourceDetails)
    (resources : List (String × ResourceInfo)) (idx : Nat) (hit : Hit)
    (d : FileDownloadInfo)
    (hd : (buildSourceEntry cfg ⟨r, h, fun _ _ _ => none⟩ resources idx hit).file
      = some d) :
    d.download_url =
      cfg.NUCLIA_API_BASE ++ "/kb/" ++ cfg.KB ++ "/resource/" ++ hit.rid ++
        "/file/" ++ d.file_id ++ "/download" := by
  unfold buildSourceEntry get_temporal_download_url at hd
  dsimp only at hd
  split at hd
  · split at hd
    · exact Option.noConfusion hd
    · split at hd
      · exact Option.noConfusion hd
      · injection hd with hd'
        subst hd'
        rfl
  · split at hd
    · exact Option.noConfusion hd
    · exact Option.noConfusion hd

/-- A link icon is never classified as a file icon. -/
theorem isLinkIcon_not_file {icon : String} (h : isLinkIcon icon = true) :
    isFileIcon icon = false := by
  have : icon = "application/stf-link" := by
    simpa [isLinkIcon] using h
  subst this
  rfl

/-- For a link-classified hit the built entry does not depend on the
external environment: no lookup result can influence it. -/
theorem buildSourceEntry_link_env (cfg : Config) (env env' : Env)
    (resources : List (String × ResourceInfo)) (idx : Nat) (hit : Hit)
    (hl : isLinkIcon ((dictGet resources hit.rid {}).icon.getD "") = true) :
    buildSourceEntry cfg env resources idx hit =
      buildSourceEntry cfg env' resources idx hit := by
  have hf := isLinkIcon_not_file hl
  unfold buildSourceEntry
  dsimp only
  rw [hf]
  simp

/-- A link-classified hit yields an entry with no file descriptor. -/
theorem buildSourceEntry_link_file (cfg : Config) (env : Env)
    (resources : List (String × ResourceInfo)) (idx : Nat) (hit : Hit)
    (hl : isLinkIcon ((dictGet resources hit.rid {}).icon.getD "") = true) :
    (buildSourceEntry cfg env resources idx hit).file = none := by
  have hf := isLinkIcon_not_file hl
  unfold buildSourceEntry
  dsimp only
  rw [hf, hl]
  simp

/-- The extraction loop is the filterMap of the loop body over the
enumerated window. -/
theorem sourcesLoop_eq_filterMap {cfg : Config} {env : Env}
    {resources : List (String × ResourceInfo)} {thr : ℚ} :
    ∀ (l : List Hit) (s : Nat),
      sourcesLoop cfg env resources thr s l =
        (l.enumFrom s).filterMap
          (fun x => extractEntry? cfg env resources thr x.1 x.2) := by
  intro l
  induction l with
  | nil => intro s; rfl
  | cons x rest ih =>
    intro s
    unfold sourcesLoop
    rcases hf : extractEntry? cfg env resources thr s x with _ | e' <;>
      simp [List.enumFrom_cons, List.filterMap_cons, hf, ih (s + 1)]

/-- Unfolding of `extract_sources_info` to the extraction loop. -/
theorem extract_sources_info_def (cfg : Config) (env : Env) (p : SearchPayload)
    (N : Nat) (thr : ℚ) :
    extract_sources_info cfg env p N thr =
      sourcesLoop cfg env (pickRetrievalResults p).resources thr 0
        ((pickRetrievalResults p).paragraphs.take N) := rfl

/-! Claim theorems. -/

set_option maxRecDepth 10000

/-- C1: for every configuration, environment, search payload, max-chunk
count and score threshold, every entry produced by `extract_sources_info`
has `is_downloadable = true` exactly when its `file` download descriptor is
present (non-null). -/
theorem C1_downloadable_iff_file {cfg : Config} {env : Env} {p : SearchPayload}
    {N : Nat} {thr : ℚ} {e : SourceEntry}
    (h : e ∈ extract_sources_info cfg env p N thr) :
    e.is_downloadable = true ↔ e.file ≠ none := by
  rw [extract_sources_info_def] at h
  obtain ⟨i, hit, _, h2⟩ := sourcesLoop_mem _ _ h
  rw [(extractEntry?_spec h2).2.1]
  cases e.file <;> simp

/-- C1 witness: the PDF hit of `payloadFile` yields a concrete entry
satisfying the equivalence. -/
theorem C1_witness :
    buildSourceEntry cfg0 envPdf [("r1", resInfoPdf)] 0 hitFile ∈
        extract_sources_info cfg0 envPdf payloadFile 20 0 ∧
      ((buildSourceEntry cfg0 envPdf [("r1", resInfoPdf)] 0 hitFile).is_downloadable = true ↔
        (buildSourceEntry cfg0 envPdf [("r1", resInfoPdf)] 0 hitFile).file ≠ none) := by
  have he : extract_sources_info cfg0 envPdf payloadFile 20 0 =
      [buildSourceEntry cfg0 envPdf [("r1", resInfoPdf)] 0 hitFile] := rfl
  have hm : buildSourceEntry cfg0 envPdf [("r1", resInfoPdf)] 0 hitFile ∈
      extract_sources_info cfg0 envPdf payloadFile 20 0 := by
    rw [he]; exact List.mem_singleton_self _
  exact ⟨hm, C1_downloadable_iff_file hm⟩

/-- C2 counterexample: in an environment where the SDK download-URL
issuance raises on every call (while the resource lookup succeeds), the
file hit of `payloadFile` still comes out downloadable, carrying the
fallback standard download URL — not non-downloadable as claimed. -/
theorem C2_counterexample :
    (extract_sources_info cfg0 envPdfNoUrl payloadFile 20 0).map
        (fun e => (e.is_downloadable, e.file.map (fun f => f.download_url))) =
      [(true, some "https://rag.progress.cloud/api/v1/kb/kb1/resource/r1/file/f1/download")] :=
  rfl

/-- C2 amended: entry construction is never aborted.  When the resource
lookup raises (SDK and HTTP fallback), every entry degrades to
non-downloadable with no descriptor; when the SDK URL issuance raises, any
attached descriptor falls back to the standard authenticated download URL
and the entry stays downloadable. -/
theorem C2_degrade : ∀ (cfg : Config)
    (u : String → String → Nat → Option String)
    (r h : String → Option ResourceDetails)
    (p : SearchPayload) (N : Nat) (thr : ℚ),
    (∀ e ∈ extract_sources_info cfg ⟨fun _ => none, fun _ => none, u⟩ p N thr,
        e.is_downloadable = false ∧ e.file = none) ∧
    (∀ e ∈ extract_sources_info cfg ⟨r, h, fun _ _ _ => none⟩ p N thr,
      ∀ d, e.file = some d →
        e.is_downloadable = true ∧
        d.download_url =
          cfg.NUCLIA_API_BASE ++ "/kb/" ++ cfg.KB ++ "/resource/" ++
            e.resource_id ++ "/file/" ++ d.file_id ++ "/download") := by
  intro cfg u r h p N thr
  constructor
  · intro e he
    rw [extract_sources_info_def] at he
    obtain ⟨i, hit, _, h2⟩ := sourcesLoop_mem _ _ he
    have hb := extractEntry?_eq_build h2
    subst hb
    have hfile := buildSourceEntry_lookupFail cfg u
      (pickRetrievalResults p).resources (0 + i) hit
    refine ⟨?_, hfile⟩
    rw [(extractEntry?_spec h2).2.1, hfile]
    rfl
  · intro e he d hd
    rw [extract_sources_info_def] at he
    obtain ⟨i, hit, _, h2⟩ := sourcesLoop_mem _ _ he
    have hb := extractEntry?_eq_build h2
    subst hb
    refine ⟨?_, ?_⟩
    · rw [(extractEntry?_spec h2).2.1, hd]
      rfl
    · exact buildSourceEntry_urlFail cfg r h
        (pickRetrievalResults p).resources (0 + i) hit d hd

/-- C2 witness: with every lookup raising, the surviving hit of `pNS`
still yields an entry, and that entry is non-downloadable. -/
theorem C2_witness :
    (buildSourceEntry cfg0 ⟨fun _ => none, fun _ => none, fun _ _ _ => none⟩
        [] 0 hitNS).is_downloadable = false ∧
      (buildSourceEntry cfg0 ⟨fun _ => none, fun _ => none, fun _ _ _ => none⟩
        [] 0 hitNS).file = none := by
  have hm : buildSourceEntry cfg0 ⟨fun _ => none, fun _ => none, fun _ _ _ => none⟩
      [] 0 hitNS ∈
      extract_sources_info cfg0 ⟨fun _ => none, fun _ => none, fun _ _ _ => none⟩
        pNS 20 0 := by
    have he : extract_sources_info cfg0
        ⟨fun _ => none, fun _ => none, fun _ _ _ => none⟩ pNS 20 0 =
        [buildSourceEntry cfg0 ⟨fun _ => none, fun _ => none, fun _ _ _ => none⟩
          [] 0 hitNS] := rfl
    rw [he]; exact List.mem_singleton_self _
  exact (C2_degrade cfg0 (fun _ _ _ => none) (fun _ => none) (fun _ => none)
    pNS 20 0).1 _ hm

/-- C3 counterexample: at threshold 1, the score-less hit of `pNS`
contributes a context block but yields no source entry, so the two
components do not apply the same survival filter. -/
theorem C3_counterexample :
    contextBlocks pNS 20 true 1 = ["hola"] ∧
      extract_sources_info cfg0 envNone pNS 20 1 = [] := ⟨rfl, rfl⟩

/-- C3 amended: on every hit carrying an explicit score field, the context
builder and the source extractor apply the same survival filter (threshold
on the score, then non-empty trimmed text); they diverge only on hits with
no score field, which `build_context` defaults to 1.0 and
`extract_sources_info` defaults to 0.0. -/
theorem C3_same_filter_scored (cfg : Config) (env : Env)
    (resources : List (String × ResourceInfo)) (im : Bool) (thr : ℚ)
    (idx : Nat) (hit : Hit) (s : ℚ) (hs : hit.score = some s) :
    (contextBlock? resources im thr hit).isSome ↔
      (extractEntry? cfg env resources thr idx hit).isSome := by
  rw [contextBlock?_isSome, extractEntry?_isSome, hs]
  simp

/-- C3 witness: the explicitly scored hit `hitSc` survives both filters
alike. -/
theorem C3_witness :
    (contextBlock? [] true 0 hitSc).isSome ↔
      (extractEntry? cfg0 envNone [] 0 0 hitSc).isSome :=
  C3_same_filter_scored cfg0 envNone [] true 0 0 hitSc 1 rfl

/-- C4 counterexample: `pC4` carries both a top-level paragraph (text "A")
and `raw_response.retrieval_results` (text "B"); the extractor uses the
raw-response shape, not the top-level one as claimed. -/
theorem C4_counterexample :
    (extract_sources_info cfg0 envNone pC4 20 0).map SourceEntry.text = ["B"] ∧
      pC4.top.paragraphs.map (fun h => pyStrip (h.text.getD "")) = ["A"] := ⟨rfl, rfl⟩

/-- C4 amended: the extractor probes `raw_response.retrieval_results`
first, then `raw_response.retrieval.results`, and falls back to the
top-level shape only when both are absent/falsy (or when there is no
truthy `raw_response` at all). -/
theorem C4_probe_order : ∀ (cfg : Config) (env : Env) (p : SearchPayload)
    (N : Nat) (thr : ℚ),
    (∀ rr r, p.raw_response = some rr → rr.retrieval_results = some r →
      extract_sources_info cfg env p N thr =
        extract_sources_info cfg env ⟨none, r⟩ N thr) ∧
    (∀ rr r, p.raw_response = some rr → rr.retrieval_results = none →
        rr.retrieval.bind Retrieval.results = some r →
      extract_sources_info cfg env p N thr =
        extract_sources_info cfg env ⟨none, r⟩ N thr) ∧
    (∀ rr, p.raw_response = some rr → rr.retrieval_results = none →
        rr.retrieval.bind Retrieval.results = none →
      extract_sources_info cfg env p N thr =
        extract_sources_info cfg env ⟨none, p.top⟩ N thr) ∧
    (p.raw_response = none →
      extract_sources_info cfg env p N thr =
        extract_sources_info cfg env ⟨none, p.top⟩ N thr) := by
  intro cfg env p N thr
  refine ⟨?_, ?_, ?_, ?_⟩
  · intro rr r h1 h2
    simp only [extract_sources_info, pickRetrievalResults, h1, h2]
  · intro rr r h1 h2 h3
    simp only [extract_sources_info, pickRetrievalResults, h1, h2, h3]
  · intro rr h1 h2 h3
    simp only [extract_sources_info, pickRetrievalResults, h1, h2, h3]
  · intro h1
    simp only [extract_sources_info, pickRetrievalResults, h1]

/-- C4 witness: on `pC4`, extraction equals extraction over the nested
retrieval results alone. -/
theorem C4_witness :
    extract_sources_info cfg0 envNone pC4 20 0 =
      extract_sources_info cfg0 envNone ⟨none, { paragraphs := [hitB] }⟩ 20 0 :=
  (C4_probe_order cfg0 envNone pC4 20 0).1
    { retrieval_results := some { paragraphs := [hitB] } }
    { paragraphs := [hitB] } rfl rfl

/-- C5 counterexample: in `pC5` the first window hit is filtered out, so
the first (and only) output entry has id 2, not 1 — ids are not
consecutive post-filtering. -/
theorem C5_counterexample :
    (extract_sources_info cfg0 envNone pC5 20 0).map SourceEntry.id = [2] ∧
      (extract_sources_info cfg0 envNone pC5 20 0).length = 1 := ⟨rfl, rfl⟩

/-- C5 amended: ids are strictly increasing, and each entry's id is the
1-based position of its originating hit inside the pre-filtering window:
the hit at window index `id - 1` regenerates exactly that entry. -/
theorem C5_ids : ∀ (cfg : Config) (env : Env) (p : SearchPayload)
    (N : Nat) (thr : ℚ),
    List.Chain' (fun a b => a.id < b.id) (extract_sources_info cfg env p N thr) ∧
    ∀ e ∈ extract_sources_info cfg env p N thr,
      1 ≤ e.id ∧
      ((((pickRetrievalResults p).paragraphs.take N).get? (e.id - 1)).bind
          (fun hit =>
            extractEntry? cfg env (pickRetrievalResults p).resources thr
              (e.id - 1) hit)) = some e := by
  intro cfg env p N thr
  constructor
  · rw [extract_sources_info_def]
    exact sourcesLoop_chain _ _
  · intro e he
    rw [extract_sources_info_def] at he
    obtain ⟨i, hit, hg, h2⟩ := sourcesLoop_mem _ _ he
    have hid := (extractEntry?_spec h2).1
    rw [Nat.zero_add] at h2 hid
    constructor
    · omega
    · rw [hid]
      simp only [Nat.add_sub_cancel]
      rw [hg]
      simpa using h2

/-- C5 witness: the surviving hit of `pC5` sits at window index 1 and its
entry carries id 2. -/
theorem C5_witness :
    1 ≤ (buildSourceEntry cfg0 envNone [] 1 hitX).id ∧
      ((((pickRetrievalResults pC5).paragraphs.take 20).get?
            ((buildSourceEntry cfg0 envNone [] 1 hitX).id - 1)).bind
          (fun hit =>
            extractEntry? cfg0 envNone (pickRetrievalResults pC5).resources 0
              ((buildSourceEntry cfg0 envNone [] 1 hitX).id - 1) hit)) =
        some (buildSourceEntry cfg0 envNone [] 1 hitX) := by
  have he : extract_sources_info cfg0 envNone pC5 20 0 =
      [buildSourceEntry cfg0 envNone [] 1 hitX] := rfl
  have hm : buildSourceEntry cfg0 envNone [] 1 hitX ∈
      extract_sources_info cfg0 envNone pC5 20 0 := by
    rw [he]; exact List.mem_singleton_self _
  exact (C5_ids cfg0 envNone pC5 20 0).2 _ hm

/-- C6 counterexample: icon `image/png` names a MIME type other than the
link marker, yet even with a succeeding lookup environment the hit is not
treated as a file: no lookup result is attached and the entry is
non-downloadable. -/
theorem C6_counterexample :
    (extract_sources_info cfg0 envPdf pC6 20 0).map
        (fun e => (e.resource_type, e.is_downloadable, e.file.isSome)) =
      [("image/png", false, false)] := rfl

/-- C6 amended: a resource is file-classified exactly when its icon is
non-empty, contains "application/" and differs from the link marker; it is
link-classified exactly when the icon equals the marker; a link-classified
hit never consults the external environment (no lookup, no URL issuance)
and gets no file descriptor; and when an attached descriptor's content
type contains "pdf" case-insensitively, its `is_pdf` flag is true. -/
theorem C6_classification : ∀ (cfg : Config) (env env' : Env)
    (resources : List (String × ResourceInfo)) (thr : ℚ) (idx : Nat) (hit : Hit),
    (∀ icon : String, isFileIcon icon = true ↔
        icon ≠ "" ∧ pyIn "application/" icon = true ∧
          icon ≠ "application/stf-link") ∧
    (∀ icon : String, isLinkIcon icon = true ↔ icon = "application/stf-link") ∧
    (isLinkIcon ((dictGet resources hit.rid {}).icon.getD "") = true →
      extractEntry? cfg env resources thr idx hit =
        extractEntry? cfg env' resources thr idx hit) ∧
    (∀ e, extractEntry? cfg env resources thr idx hit = some e →
      isLinkIcon ((dictGet resources hit.rid {}).icon.getD "") = true →
        e.file = none) ∧
    (∀ e d, extractEntry? cfg env resources thr idx hit = some e →
      e.file = some d → pyIn "pdf" (pyLower d.content_type) = true →
        d.is_pdf = true) := by
  intro cfg env env' resources thr idx hit
  refine ⟨?_, ?_, ?_, ?_, ?_⟩
  · intro icon
    simp [isFileIcon, and_assoc]
  · intro icon
    simp [isLinkIcon]
  · intro hl
    unfold extractEntry?
    rw [buildSourceEntry_link_env cfg env env' resources idx hit hl]
  · intro e h1 hl
    have hb := extractEntry?_eq_build h1
    subst hb
    exact buildSourceEntry_link_file cfg env resources idx hit hl
  · intro e d h1 hd hpdf
    rw [((extractEntry?_spec h1).2.2 d hd).1, hpdf]

/-- C6 witness: the link hit `hitLink` produces the same entry under a
succeeding and a failing environment, with no file descriptor. -/
theorem C6_witness :
    (extractEntry? cfg0 envPdf resLink 0 0 hitLink =
        extractEntry? cfg0 envNone resLink 0 0 hitLink) ∧
      (buildSourceEntry cfg0 envPdf resLink 0 hitLink).file = none := by
  refine ⟨(C6_classification cfg0 envPdf envNone resLink 0 0 hitLink).2.2.1 rfl, ?_⟩
  exact (C6_classification cfg0 envPdf envNone resLink 0 0 hitLink).2.2.2.1
    (buildSourceEntry cfg0 envPdf resLink 0 hitLink) rfl rfl

/-- C7: both components emit at most N items, drawn only from the first N
hits of their paragraph list in payload order: the extraction equals the
filter-map of the loop body over the enumerated N-hit window, and the
context blocks are the filter-map of the block builder over a sublist of
the window consisting of surviving hits. -/
theorem C7_window_bound : ∀ (cfg : Config) (env : Env) (p : SearchPayload)
    (N : Nat) (im : Bool) (thr : ℚ),
    (contextBlocks p N im thr).length ≤ N ∧
    (extract_sources_info cfg env p N thr).length ≤ N ∧
    extract_sources_info cfg env p N thr =
      (((pickRetrievalResults p).paragraphs.take N).enumFrom 0).filterMap
        (fun x =>
          extractEntry? cfg env (pickRetrievalResults p).resources thr x.1 x.2) ∧
    (∃ hits', List.Sublist hits' (p.top.paragraphs.take N) ∧
      (∀ h ∈ hits', (contextBlock? p.top.resources im thr h).isSome) ∧
      contextBlocks p N im thr =
        hits'.filterMap (contextBlock? p.top.resources im thr)) := by
  intro cfg env p N im thr
  refine ⟨?_, ?_, ?_, ?_⟩
  · calc (contextBlocks p N im thr).length
        ≤ (p.top.paragraphs.take N).length := List.length_filterMap_le _ _
      _ ≤ N := by rw [List.length_take]; exact min_le_left _ _
  · calc (extract_sources_info cfg env p N thr).length
        ≤ ((pickRetrievalResults p).paragraphs.take N).length :=
          sourcesLoop_length _ _
      _ ≤ N := by rw [List.length_take]; exact min_le_left _ _
  · rw [extract_sources_info_def]
    exact sourcesLoop_eq_filterMap _ _
  · refine ⟨(p.top.paragraphs.take N).filter
        (fun h => (contextBlock? p.top.resources im thr h).isSome),
      List.filter_sublist _, ?_, ?_⟩
    · intro h hh
      exact (List.mem_filter.mp hh).2
    · exact (filterMap_filter_isSome _ _).symm

/-- C7 witness: concrete window bounds on `pC5`. -/
theorem C7_witness :
    (contextBlocks pC5 20 true 0).length ≤ 20 ∧
      (extract_sources_info cfg0 envNone pC5 20 0).length ≤ 20 :=
  ⟨(C7_window_bound cfg0 envNone pC5 20 true 0).1,
   (C7_window_bound cfg0 envNone pC5 20 true 0).2.1⟩

/-- C8 counterexample: for an upstream 404, the `/ask` route answers with
status 502 — not the upstream status code as claimed (the upstream status
appears only inside the detail text). -/
theorem C8_counterexample :
    ask_route Unit (.error (.http ⟨some (404, "nf"), "m"⟩)) =
      .error ⟨502, "Error consultando Nuclia (404): nf"⟩ := rfl

/-- C8 amended: on an upstream HTTP failure carrying a response, the
`/nuclia-ask` route surfaces the upstream status code as its response
status while the `/ask` route always answers 502; both embed the upstream
body truncated to at most 600 characters in the detail, and neither
retries (each route maps the single call outcome directly). -/
theorem C8_upstream_errors : ∀ (α : Type) (e : RequestsHTTPError)
    (s : Nat) (b : String), e.response = some (s, b) →
    (nuclia_ask_route α (.error (.http e)) =
      .error ⟨s, "Error en endpoint /ask de Nuclia (" ++ toString s ++ "): " ++
        pyTake b 600⟩) ∧
    (ask_route α (.error (.http e)) =
      .error ⟨502, "Error consultando Nuclia (" ++ toString s ++ "): " ++
        pyTake b 600⟩) ∧
    (pyTake b 600).length ≤ 600 := by
  intro α e s b he
  obtain ⟨resp, msg⟩ := e
  simp only at he
  subst he
  refine ⟨rfl, rfl, ?_⟩
  have hl : (pyTake b 600).length = (b.toList.take 600).length := rfl
  rw [hl, List.length_take]
  exact min_le_left _ _

/-- C8 witness: concrete upstream 404. -/
theorem C8_witness :
    (nuclia_ask_route Unit (.error (.http ⟨some (404, "nf"), "m"⟩)) =
        .error ⟨404, "Error en endpoint /ask de Nuclia (" ++ toString 404 ++
          "): " ++ pyTake "nf" 600⟩) ∧
      (ask_route Unit (.error (.http ⟨some (404, "nf"), "m"⟩)) =
        .error ⟨502, "Error consultando Nuclia (" ++ toString 404 ++ "): " ++
          pyTake "nf" 600⟩) ∧
      (pyTake "nf" 600).length ≤ 600 :=
  C8_upstream_errors Unit ⟨some (404, "nf"), "m"⟩ 404 "nf" rfl

/-- C9: when the raw ASK response carries `retrieval.results`, the
normalized sources list has the same length, and its i-th element carries
`resource_id` equal to the i-th retrieval result's `rid` and id `i + 1`. -/
theorem C9_roundtrip : ∀ (μ χ ρ : Type) (response : NucliaAskResponse μ χ ρ)
    (rb : Retrieval2) (l : List RItem),
    response.retrieval = some rb → rb.results = some l →
    (parse_nuclia_ask_response response).sources.length = l.length ∧
    ∀ i item, l.get? i = some item →
      ((parse_nuclia_ask_response response).sources.get? i).map
          AskSource.resource_id = some item.rid ∧
      ((parse_nuclia_ask_response response).sources.get? i).map
          AskSource.id = some (i + 1) := by
  intro μ χ ρ response rb l h1 h2
  have hs : (parse_nuclia_ask_response response).sources = askSourcesLoop 0 l := by
    simp only [parse_nuclia_ask_response, h1, h2]
  constructor
  · rw [hs, askSourcesLoop_length]
  · intro i item hi
    rw [hs, askSourcesLoop_get? l 0 i, hi]
    constructor <;> simp

/-- C9 witness: the one-hit response `respC9` round-trips its rid. -/
theorem C9_witness :
    ((parse_nuclia_ask_response respC9).sources.get? 0).map
        AskSource.resource_id = some (some "R") ∧
      ((parse_nuclia_ask_response respC9).sources.get? 0).map
        AskSource.id = some 1 ∧
      (parse_nuclia_ask_response respC9).sources.length = 1 := by
  have h := C9_roundtrip Unit Unit Unit respC9 ⟨some [itemC9]⟩ [itemC9] rfl rfl
  have h2 := h.2 0 itemC9 rfl
  exact ⟨h2.1, h2.2, h.1⟩

/-- C10: whenever the download proxy succeeds it serves the file under the
`{resource_id}_{file_id}.pdf` attachment filename with the (hardcoded)
`application/octet-stream` media type, whatever the fetched bytes were. -/
theorem C10_proxy : ∀ (env : DownloadEnv) (resource_id file_id : String)
    (r : StreamingResp),
    download_file env resource_id file_id = Except.ok r →
    r.media_type = "application/octet-stream" ∧
    ("Content-Disposition",
        "attachment; filename=\"" ++ resource_id ++ "_" ++ file_id ++ ".pdf\"")
      ∈ r.headers := by
  intro env rid fid r h
  unfold download_file download_resource_file at h
  cases hsdk : env.sdkDownload rid fid with
  | ok content =>
    rw [hsdk] at h
    dsimp only at h
    injection h with h'
    subst h'
    exact ⟨rfl, List.mem_cons_self _ _⟩
  | error err =>
    rw [hsdk] at h
    dsimp only at h
    exact Except.noConfusion h

/-- C10 witness: three concrete bytes served for `r1`/`f1`. -/
theorem C10_witness :
    resp0.media_type = "application/octet-stream" ∧
      ("Content-Disposition",
          "attachment; filename=\"" ++ "r1" ++ "_" ++ "f1" ++ ".pdf\"")
        ∈ resp0.headers :=
  C10_proxy dlEnv0 "r1" "f1" resp0 rfl

end UVGAgent
